import Mathlib

/-
Shallow embedding of the rrest repository: an HTTP service that issues
identifiers (uuid → username map guarded by a RwLock) and lets an identified
client create, read, update and delete a single product record held in a
SQLite table `product (owner text, name text, description text)`.

Sources embedded here:
  * src/http_interface/src/main.rs (the complete iteration): handlers
    create_identifier, get_identifier, create_product, get_product,
    modify_product, delete_product; the extractor RequiredUserId /
    verify_uuid; and the Db layer (save/read/update/delete_product, setup).
  * src/src/main.rs (the earlier iteration): create_identifier and
    list_identifier.

Modelling conventions: sequential execution (one request at a time);
machine state is passed explicitly; a Rust panic (an .unwrap() that can
fail) is modelled as `none`; HTTP status codes are the corresponding
natural numbers.
-/

namespace RRest

/-- Produced by the external uuid crate: a 128-bit value. The embedding
uses plain naturals; theorems that depend on the 128-bit width carry the
hypothesis `u < 2 ^ 128`. -/
abbrev Uuid := Nat

/-- Value of a single hexadecimal character, lower or upper case, as in the
uuid crate's character table. -/
def hexVal (c : Char) : Option Nat :=
  if '0' ≤ c ∧ c ≤ '9' then some (c.toNat - 48)
  else if 'a' ≤ c ∧ c ≤ 'f' then some (c.toNat - 87)
  else if 'A' ≤ c ∧ c ≤ 'F' then some (c.toNat - 55)
  else none

/-- Lower-case hexadecimal character of a digit value below 16, as rendered
by the uuid crate's `hyphenated` encoder. -/
def toHexChar (d : Nat) : Char :=
  if d < 10 then Char.ofNat (48 + d) else Char.ofNat (87 + d)

/-- The `w` lowest hexadecimal digits of `n`, most significant first. -/
def toHexDigits (n : Nat) : Nat → List Char
  | 0 => []
  | w + 1 => toHexChar (n / 16 ^ w % 16) :: toHexDigits n w

/-- Read exactly `w` hexadecimal characters from the front of the list,
accumulating their value MSB-first; return the value and the remaining
characters. Models the group scanner of the uuid crate's parser. -/
def readHexN (acc : Nat) : Nat → List Char → Option (Nat × List Char)
  | 0, cs => some (acc, cs)
  | _ + 1, [] => none
  | w + 1, c :: cs =>
    match hexVal c with
    | some d => readHexN (acc * 16 + d) w cs
    | none => none

/-- Expect a hyphen separator between groups. -/
def expectDash : List Char → Option (List Char)
  | c :: r => if c = '-' then some r else none
  | [] => none

/-- The 8-4-4-4-12 hyphenated group scanner of the uuid crate
(its `parse_hyphenated`): consumes exactly 36 characters or fails. -/
def parseHyphenated (cs : List Char) : Option Nat :=
  (readHexN 0 8 cs).bind fun ar =>
  (expectDash ar.2).bind fun r1 =>
  (readHexN 0 4 r1).bind fun br =>
  (expectDash br.2).bind fun r2 =>
  (readHexN 0 4 r2).bind fun cr =>
  (expectDash cr.2).bind fun r3 =>
  (readHexN 0 4 r3).bind fun dr =>
  (expectDash dr.2).bind fun r4 =>
  (readHexN 0 12 r4).bind fun er =>
  if er.2 = [] then
    some ((((ar.1 * 16 ^ 4 + br.1) * 16 ^ 4 + cr.1) * 16 ^ 4 + dr.1) * 16 ^ 12 + er.1)
  else none

/-- Character-level model of `Uuid::parse_str` of the uuid crate as called
by `verify_uuid` and `list_identifier`, following the crate's `try_parse`
dispatch on length and shape: length 32 is the simple form (32 hex
characters); length 36 the hyphenated form; length 38 the braced form (a
hyphenated uuid between an opening and a closing curly brace); length 45
the URN form (the prefix `urn:uuid:` before a hyphenated uuid); any other
length fails. -/
def parseChars (cs : List Char) : Option Nat :=
  if cs.length = 32 then
    (readHexN 0 32 cs).bind fun vr =>
      if vr.2 = [] then some vr.1 else none
  else if cs.length = 36 then
    parseHyphenated cs
  else if cs.length = 38 then
    if cs.head? = some '\x7b' ∧ cs.getLast? = some '\x7d' then
      parseHyphenated (cs.drop 1).dropLast
    else none
  else if cs.length = 45 then
    if cs.take 9 = ['u', 'r', 'n', ':', 'u', 'u', 'i', 'd', ':'] then
      parseHyphenated (cs.drop 9)
    else none
  else none

/-- Model of `Uuid::parse_str` on strings. -/
def Uuid.parse_str (s : String) : Option Nat :=
  parseChars s.data

/-- Characters of the canonical hyphenated rendering (8-4-4-4-12 lower-case
hex groups) of a 128-bit value. -/
def hyphenatedChars (u : Nat) : List Char :=
  toHexDigits (u / 16 ^ 24) 8 ++ '-' ::
    (toHexDigits (u / 16 ^ 20) 4 ++ '-' ::
      (toHexDigits (u / 16 ^ 16) 4 ++ '-' ::
        (toHexDigits (u / 16 ^ 12) 4 ++ '-' :: toHexDigits u 12)))

/-- Model of `uuid.hyphenated().to_string()` and of `uuid.to_string()`
(the Display rendering of the uuid crate is the hyphenated form; both
`create_identifier`'s response and the Db layer's `owner` column use it). -/
def Uuid.hyphenated (u : Nat) : String :=
  ⟨hyphenatedChars u⟩

theorem toHexDigits_length (n : Nat) : ∀ w, (toHexDigits n w).length = w := by
  intro w
  induction w with
  | zero => rfl
  | succ w ih => simp [toHexDigits, ih]

theorem hexVal_toHexChar : ∀ d < 16, hexVal (toHexChar d) = some d := by
  decide

theorem readHexN_toHexDigits (w : Nat) :
    ∀ (acc n : Nat) (rest : List Char),
      readHexN acc w (toHexDigits n w ++ rest)
        = some (acc * 16 ^ w + n % 16 ^ w, rest) := by
  induction w with
  | zero =>
    intro acc n rest
    simp [toHexDigits, readHexN, Nat.mod_one]
  | succ w ih =>
    intro acc n rest
    have hd : n / 16 ^ w % 16 < 16 := Nat.mod_lt _ (by norm_num)
    have step : readHexN acc (w + 1) (toHexDigits n (w + 1) ++ rest)
        = readHexN (acc * 16 + n / 16 ^ w % 16) w (toHexDigits n w ++ rest) := by
      simp [toHexDigits, readHexN, hexVal_toHexChar _ hd]
    rw [step, ih]
    have hmod : n % 16 ^ (w + 1) = n % 16 ^ w + 16 ^ w * (n / 16 ^ w % 16) := by
      rw [pow_succ, Nat.mod_mul]
    have harith : (acc * 16 + n / 16 ^ w % 16) * 16 ^ w + n % 16 ^ w
        = acc * 16 ^ (w + 1) + n % 16 ^ (w + 1) := by
      rw [hmod, pow_succ]
      ring
    rw [harith]

theorem readHexN_toHexDigits_nil (w acc n : Nat) :
    readHexN acc w (toHexDigits n w) = some (acc * 16 ^ w + n % 16 ^ w, []) := by
  have h := readHexN_toHexDigits w acc n []
  simpa using h

theorem parseHyphenated_hyphenatedChars (u : Nat) (hu : u < 2 ^ 128) :
    parseHyphenated (hyphenatedChars u) = some u := by
  unfold parseHyphenated hyphenatedChars
  simp [readHexN_toHexDigits, readHexN_toHexDigits_nil, expectDash]
  have hu16 : u < 340282366920938463463374607431768211456 := by
    calc u < 2 ^ 128 := hu
    _ = 340282366920938463463374607431768211456 := by norm_num
  omega

/-- Round trip of the uuid crate: parsing the hyphenated rendering of a
128-bit value gives that value back. -/
theorem parse_str_hyphenated (u : Nat) (hu : u < 2 ^ 128) :
    Uuid.parse_str (Uuid.hyphenated u) = some u := by
  have hlen : (hyphenatedChars u).length = 36 := by
    simp [hyphenatedChars, toHexDigits_length]
  show parseChars (hyphenatedChars u) = some u
  rw [parseChars, if_neg (by rw [hlen]; norm_num), if_pos hlen]
  exact parseHyphenated_hyphenatedChars u hu

/-- SharedUser: the `RwLock<HashMap<Uuid, String>>` Identity Registry, as an
association list. `insert` conses; `get?` takes the first binding, so an
earlier binding shadows, which gives the observable replace-on-insert
semantics of `HashMap::insert` / `HashMap::get_key_value`. -/
abbrev Registry := List (Nat × String)

/-- Models `usermap.insert(id, username)`. -/
def Registry.insert (m : Registry) (k : Nat) (v : String) : Registry :=
  (k, v) :: m

/-- Models `usermap.get_key_value(&uuid)` and `usermap.get(&uuid)`. -/
def Registry.get? (m : Registry) (k : Nat) : Option (Nat × String) :=
  m.find? (fun p => p.1 == k)

/-- The `Product` payload struct: `name`, `description`. -/
structure Product where
  name : String
  description : String
deriving DecidableEq

/-- `Product::default()`: both fields empty. -/
def defaultProduct : Product := ⟨"", ""⟩

/-- The `ModifyProduct` body of PUT /products: both fields optional. -/
structure ModifyProduct where
  name : Option String
  description : Option String
deriving DecidableEq

/-- The `User` response struct of the identifier routes. -/
structure User where
  id : String
  username : String
deriving DecidableEq

/-- `User::default()`: both fields empty. -/
def defaultUser : User := ⟨"", ""⟩

/-- One row of the SQLite table created by `Db::setup`:
`product (owner text, name text, description text)`. The table declares no
key or uniqueness constraint, so the state is a plain list of rows in
insertion order. -/
structure Row where
  owner : String
  name : String
  description : String
deriving DecidableEq

abbrev Table := List Row

/-- Number of rows whose `owner` column equals `o` (what
`rows_affected()` reports for an UPDATE/DELETE with `WHERE owner = o`). -/
def countOwner (t : Table) (o : String) : Nat :=
  t.countP (fun r => r.owner == o)

/-- `Db::save_product`: INSERT the row, then demand exactly one affected
row (an INSERT into this unconstrained table always affects one). -/
def Db.save_product (uuid : Nat) (name description : String) (t : Table) :
    Except Nat Unit × Table :=
  let t2 := t ++ [⟨Uuid.hyphenated uuid, name, description⟩]
  let affected := t2.length - t.length
  if affected = 1 then (Except.ok (), t2) else (Except.error 500, t2)

/-- `Db::read_product`: `SELECT name, description FROM product WHERE
owner = ?1` with `fetch_one`, which yields the first matching row or a
RowNotFound error, mapped to 404. -/
def Db.read_product (uuid : Nat) (t : Table) : Except Nat Product :=
  match t.find? (fun r => r.owner == Uuid.hyphenated uuid) with
  | some r => Except.ok ⟨r.name, r.description⟩
  | none => Except.error 404

/-- `Db::update_product`: `UPDATE product SET name = ?1, description = ?2
WHERE owner = ?3` rewrites every matching row; the handler then demands
`rows_affected() == 1`, otherwise 500 (INTERNAL_SERVER_ERROR). -/
def Db.update_product (uuid : Nat) (name description : String) (t : Table) :
    Except Nat Unit × Table :=
  let o := Uuid.hyphenated uuid
  let affected := countOwner t o
  let t2 := t.map (fun r => if r.owner == o then ⟨r.owner, name, description⟩ else r)
  if affected = 1 then (Except.ok (), t2) else (Except.error 500, t2)

/-- `Db::delete_product`: `DELETE FROM product WHERE owner = ?1` removes
every matching row; then `rows_affected() == 1` is demanded, otherwise
404 (NOT_FOUND). -/
def Db.delete_product (uuid : Nat) (t : Table) : Except Nat Unit × Table :=
  let o := Uuid.hyphenated uuid
  let affected := countOwner t o
  let t2 := t.filter (fun r => !(r.owner == o))
  if affected = 1 then (Except.ok (), t2) else (Except.error 404, t2)

/-- Handler `create_identifier` (http_interface iteration): generate a
fresh uuid (`fresh` stands for the value of `Uuid::new_v4()`), insert it
with the username, reply 200 with the hyphenated string. -/
def create_identifier (fresh : Nat) (username : String) (users : Registry) :
    (Nat × String) × Registry :=
  ((200, Uuid.hyphenated fresh), Registry.insert users fresh username)

/-- Handler `get_identifier`: look the caller's (already guard-validated)
uuid up with `get_key_value(..).unwrap()` — `none` models the panic of the
unwrap — and reply 302 (FOUND) with id and username. -/
def get_identifier (id : Nat) (users : Registry) : Option (Nat × User) :=
  match Registry.get? users id with
  | some kv => some (302, ⟨Uuid.hyphenated kv.1, kv.2⟩)
  | none => none

/-- Handler `create_product`: if the owner's read fails, insert and reply
201 (CREATED) echoing the payload; on a read hit reply 409 (CONFLICT)
with `Product::default()` and leave the table alone. -/
def create_product (id : Nat) (payload : Product) (t : Table) :
    (Nat × Product) × Table :=
  match Db.read_product id t with
  | Except.error _ =>
    match Db.save_product id payload.name payload.description t with
    | (Except.ok _, t2) => ((201, payload), t2)
    | (Except.error e, t2) => ((e, defaultProduct), t2)
  | Except.ok _ => ((409, defaultProduct), t)

/-- Handler `get_product`: 302 (FOUND) with the record, or 404 with
`Product::default()`. -/
def get_product (id : Nat) (t : Table) : Nat × Product :=
  match Db.read_product id t with
  | Except.ok p => (302, p)
  | Except.error _ => (404, defaultProduct)

/-- Handler `delete_product`: 204 (NO_CONTENT, no body) on success,
otherwise the Db error status. -/
def delete_product (id : Nat) (t : Table) : Nat × Table :=
  match Db.delete_product id t with
  | (Except.ok _, t2) => (204, t2)
  | (Except.error e, t2) => (e, t2)

/-- Handler `modify_product`: read the existing record; merge the payload
over it with `unwrap_or` (absent fields keep prior values); update; 204
(NO_CONTENT) on success, otherwise the error status. -/
def modify_product (id : Nat) (payload : ModifyProduct) (t : Table) :
    Nat × Table :=
  match Db.read_product id t with
  | Except.ok p =>
    match Db.update_product id (payload.name.getD p.name)
        (payload.description.getD p.description) t with
    | (Except.ok _, t2) => (204, t2)
    | (Except.error e, t2) => (e, t2)
  | Except.error e => (e, t)

/-- `verify_uuid`: parse the header value, 403 "Invalid identifier" on a
parse failure; look it up, 403 "Invalid identifier!" when absent from the
registry; otherwise yield the validated uuid. -/
def verify_uuid (s : String) (users : Registry) : Except (Nat × String) Nat :=
  match Uuid.parse_str s with
  | none => Except.error (403, "Invalid identifier")
  | some u =>
    match Registry.get? users u with
    | some _ => Except.ok u
    | none => Except.error (403, "Invalid identifier!")

/-- `RequiredUserId::from_request_parts`: a missing (or non-ASCII, hence
`to_str`-failing) `uuid` header gives 403 "Please pass your identifier";
a present header value goes to `verify_uuid`. -/
def from_request_parts (header : Option String) (users : Registry) :
    Except (Nat × String) Nat :=
  match header with
  | none => Except.error (403, "Please pass your identifier")
  | some s => verify_uuid s users

/-- The whole shared state of the http_interface binary: the SharedUser
map and the SQLite product table. -/
structure SysState where
  users : Registry
  products : Table
deriving DecidableEq

/-- HTTP replies of the embedded routes, tagged by body shape. -/
inductive Reply where
  | reject (status : Nat) (msg : String)
  | jsonStr (status : Nat) (s : String)
  | jsonUser (status : Nat) (u : User)
  | jsonProduct (status : Nat) (p : Product)
  | empty (status : Nat)
deriving DecidableEq

/-- POST /identifiers (no guard). -/
def route_create_identifier (fresh : Nat) (username : String) (st : SysState) :
    Reply × SysState :=
  let r := create_identifier fresh username st.users
  (Reply.jsonStr r.1.1 r.1.2, ⟨r.2, st.products⟩)

/-- GET /identifiers: guard, then `get_identifier`; `none` models the
handler's unwrap panic. -/
def route_get_identifier (header : Option String) (st : SysState) :
    Option Reply × SysState :=
  match from_request_parts header st.users with
  | Except.error em => (some (Reply.reject em.1 em.2), st)
  | Except.ok id =>
    match get_identifier id st.users with
    | some su => (some (Reply.jsonUser su.1 su.2), st)
    | none => (none, st)

/-- POST /products: guard, then `create_product`. -/
def route_create_product (header : Option String) (payload : Product)
    (st : SysState) : Option Reply × SysState :=
  match from_request_parts header st.users with
  | Except.error em => (some (Reply.reject em.1 em.2), st)
  | Except.ok id =>
    let r := create_product id payload st.products
    (some (Reply.jsonProduct r.1.1 r.1.2), ⟨st.users, r.2⟩)

/-- GET /products: guard, then `get_product`. -/
def route_get_product (header : Option String) (st : SysState) :
    Option Reply × SysState :=
  match from_request_parts header st.users with
  | Except.error em => (some (Reply.reject em.1 em.2), st)
  | Except.ok id =>
    let r := get_product id st.products
    (some (Reply.jsonProduct r.1 r.2), st)

/-- PUT /products: guard, then `modify_product`. -/
def route_modify_product (header : Option String) (payload : ModifyProduct)
    (st : SysState) : Option Reply × SysState :=
  match from_request_parts header st.users with
  | Except.error em => (some (Reply.reject em.1 em.2), st)
  | Except.ok id =>
    let r := modify_product id payload st.products
    (some (Reply.empty r.1), ⟨st.users, r.2⟩)

/-- DELETE /products: guard, then `delete_product`. -/
def route_delete_product (header : Option String) (st : SysState) :
    Option Reply × SysState :=
  match from_request_parts header st.users with
  | Except.error em => (some (Reply.reject em.1 em.2), st)
  | Except.ok id =>
    let r := delete_product id st.products
    (some (Reply.empty r.1), ⟨st.users, r.2⟩)

/-- Handler `list_identifier` of the earlier iteration (src/src/main.rs):
the id arrives as a query parameter, is parsed, and the registry lookup is
`.unwrap()`ed — `none` models that panic. On a parse failure it replies
404 with `User::default()`; on a hit it replies 404 (sic) with the found
user. -/
def list_identifier (idParam : String) (users : Registry) :
    Option (Nat × User) :=
  match Uuid.parse_str idParam with
  | some uuid =>
    match Registry.get? users uuid with
    | some kv => some (404, ⟨Uuid.hyphenated kv.1, kv.2⟩)
    | none => none
  | none => some (404, defaultUser)

/-- One inbound request of the http_interface service, with the
nondeterministic inputs (fresh uuid, header value, body) made explicit. -/
inductive Op where
  | issue (fresh : Nat) (username : String)
  | readId (header : Option String)
  | createP (header : Option String) (payload : Product)
  | readP (header : Option String)
  | updateP (header : Option String) (payload : ModifyProduct)
  | deleteP (header : Option String)

/-- State transition of one sequentially executed request. -/
def applyOp (st : SysState) : Op → SysState
  | Op.issue f u => (route_create_identifier f u st).2
  | Op.readId h => (route_get_identifier h st).2
  | Op.createP h p => (route_create_product h p st).2
  | Op.readP h => (route_get_product h st).2
  | Op.updateP h m => (route_modify_product h m st).2
  | Op.deleteP h => (route_delete_product h st).2

/-- Sequential execution of a list of requests. -/
def execOps (st : SysState) (ops : List Op) : SysState :=
  ops.foldl applyOp st

/-- The state right after startup: empty registry (SharedUser::default)
and the empty `product` table created by `Db::setup`. -/
def emptyState : SysState := ⟨[], []⟩

theorem get?_insert_self (m : Registry) (k : Nat) (v : String) :
    Registry.get? (Registry.insert m k v) k = some (k, v) := by
  simp [Registry.get?, Registry.insert]

theorem get?_insert_isSome (m : Registry) (k k2 : Nat) (v : String)
    (h : (Registry.get? m k2).isSome) :
    (Registry.get? (Registry.insert m k v) k2).isSome := by
  unfold Registry.get? Registry.insert
  rw [List.find?_cons]
  cases hk : ((k, v).1 == k2)
  · exact h
  · rfl

theorem countOwner_eq_zero_iff (t : Table) (o : String) :
    countOwner t o = 0 ↔ t.find? (fun r => r.owner == o) = none := by
  unfold countOwner
  rw [List.countP_eq_zero, List.find?_eq_none]

theorem read_product_error_iff (uuid : Nat) (t : Table) :
    (∃ e, Db.read_product uuid t = Except.error e) ↔
      countOwner t (Uuid.hyphenated uuid) = 0 := by
  rw [countOwner_eq_zero_iff]
  unfold Db.read_product
  cases hf : t.find? (fun r => r.owner == Uuid.hyphenated uuid) <;> simp

theorem countOwner_append_single (t : Table) (r : Row) (o : String) :
    countOwner (t ++ [r]) o
      = countOwner t o + (if r.owner == o then 1 else 0) := by
  unfold countOwner
  rw [List.countP_append, List.countP_cons, List.countP_nil]
  simp

theorem countOwner_update_map (o nn nd o2 : String) (t : Table) :
    countOwner (t.map (fun r => if r.owner == o then ⟨r.owner, nn, nd⟩ else r)) o2
      = countOwner t o2 := by
  unfold countOwner
  rw [List.countP_map]
  apply List.countP_congr
  intro r _
  by_cases hr : (r.owner == o) <;> simp [hr, Function.comp]

theorem find?_update_map (o nn nd : String) :
    ∀ t : Table, (t.find? (fun r => r.owner == o)).isSome →
      (t.map (fun r => if r.owner == o then ⟨r.owner, nn, nd⟩ else r)).find?
          (fun r => r.owner == o) = some ⟨o, nn, nd⟩ := by
  intro t
  induction t with
  | nil => intro h; cases h
  | cons r t ih =>
    intro h
    by_cases hr : (r.owner == o)
    · have ho : r.owner = o := by simpa using hr
      simp [hr, ho]
    · have hrb : (r.owner == o) = false := by simpa using hr
      have h2 : (t.find? (fun r => r.owner == o)).isSome := by
        simp only [List.find?_cons, hrb] at h
        exact h
      simp only [List.map_cons, if_neg hr]
      simp only [List.find?_cons, hrb]
      exact ih h2

theorem countOwner_filter_le (t : Table) (o o2 : String) :
    countOwner (t.filter (fun r => !(r.owner == o))) o2 ≤ countOwner t o2 := by
  unfold countOwner
  rw [List.countP_filter]
  apply List.countP_mono_left
  intro r _ hr
  exact (Bool.and_elim_left hr)

theorem countOwner_filter_self (t : Table) (o : String) :
    countOwner (t.filter (fun r => !(r.owner == o))) o = 0 := by
  unfold countOwner
  rw [List.countP_filter, List.countP_eq_zero]
  intro r _
  simp

theorem filter_eq_self_of_countOwner_zero (t : Table) (o : String)
    (h : countOwner t o = 0) : t.filter (fun r => !(r.owner == o)) = t := by
  rw [List.filter_eq_self]
  intro r hr
  have := (List.countP_eq_zero.mp h) r hr
  simpa using this

theorem update_product_snd (id : Nat) (nn nd : String) (t : Table) :
    (Db.update_product id nn nd t).2
      = t.map (fun r =>
          if r.owner == Uuid.hyphenated id then ⟨r.owner, nn, nd⟩ else r) := by
  by_cases hc : countOwner t (Uuid.hyphenated id) = 1 <;>
    simp [Db.update_product, hc]

theorem delete_product_db_snd (id : Nat) (t : Table) :
    (Db.delete_product id t).2
      = t.filter (fun r => !(r.owner == Uuid.hyphenated id)) := by
  by_cases hc : countOwner t (Uuid.hyphenated id) = 1 <;>
    simp [Db.delete_product, hc]

theorem delete_product_state (id : Nat) (t : Table) :
    (delete_product id t).2 = (Db.delete_product id t).2 := by
  unfold delete_product
  rcases h : Db.delete_product id t with ⟨e, t2⟩
  cases e <;> rfl

theorem modify_product_state_ok (id : Nat) (m : ModifyProduct) (t : Table)
    (p : Product) (hr : Db.read_product id t = Except.ok p) :
    (modify_product id m t).2
      = (Db.update_product id (m.name.getD p.name)
          (m.description.getD p.description) t).2 := by
  unfold modify_product
  rw [hr]
  rcases h : Db.update_product id (m.name.getD p.name)
      (m.description.getD p.description) t with ⟨e, t2⟩
  cases e <;> simp [h]

theorem state_route_get_identifier (h : Option String) (st : SysState) :
    (route_get_identifier h st).2 = st := by
  unfold route_get_identifier
  split
  · rfl
  · split <;> rfl

theorem state_route_get_product (h : Option String) (st : SysState) :
    (route_get_product h st).2 = st := by
  unfold route_get_product
  split <;> rfl

theorem users_route_create_product (h : Option String) (p : Product)
    (st : SysState) : (route_create_product h p st).2.users = st.users := by
  unfold route_create_product
  split <;> rfl

theorem users_route_modify_product (h : Option String) (m : ModifyProduct)
    (st : SysState) : (route_modify_product h m st).2.users = st.users := by
  unfold route_modify_product
  split <;> rfl

theorem users_route_delete_product (h : Option String) (st : SysState) :
    (route_delete_product h st).2.users = st.users := by
  unfold route_delete_product
  split <;> rfl

theorem products_route_create_product (h : Option String) (p : Product)
    (st : SysState) :
    (route_create_product h p st).2.products = st.products ∨
    ∃ id, (route_create_product h p st).2.products
        = (create_product id p st.products).2 := by
  unfold route_create_product
  split
  · left; rfl
  · right; exact ⟨_, rfl⟩

theorem products_route_modify_product (h : Option String) (m : ModifyProduct)
    (st : SysState) :
    (route_modify_product h m st).2.products = st.products ∨
    ∃ id, (route_modify_product h m st).2.products
        = (modify_product id m st.products).2 := by
  unfold route_modify_product
  split
  · left; rfl
  · right; exact ⟨_, rfl⟩

theorem products_route_delete_product (h : Option String) (st : SysState) :
    (route_delete_product h st).2.products = st.products ∨
    ∃ id, (route_delete_product h st).2.products
        = (delete_product id st.products).2 := by
  unfold route_delete_product
  split
  · left; rfl
  · right; exact ⟨_, rfl⟩

theorem countOwner_create_product (id : Nat) (p : Product) (t : Table)
    (o : String) (h : countOwner t o ≤ 1) :
    countOwner (create_product id p t).2 o ≤ 1 := by
  unfold create_product
  cases hr : Db.read_product id t with
  | ok q => simpa using h
  | error e =>
    have h0 : countOwner t (Uuid.hyphenated id) = 0 :=
      (read_product_error_iff id t).mp ⟨e, hr⟩
    have hsave : Db.save_product id p.name p.description t
        = (Except.ok (), t ++ [⟨Uuid.hyphenated id, p.name, p.description⟩]) := by
      simp [Db.save_product]
    simp only [hsave]
    rw [countOwner_append_single]
    by_cases hrow : ((⟨Uuid.hyphenated id, p.name, p.description⟩ : Row).owner == o)
    · have ho : Uuid.hyphenated id = o := by simpa using hrow
      rw [← ho, h0]
      simp
    · simp only [if_neg hrow, Nat.add_zero]
      exact h

theorem countOwner_modify_product (id : Nat) (m : ModifyProduct) (t : Table)
    (o : String) :
    countOwner (modify_product id m t).2 o = countOwner t o := by
  cases hr : Db.read_product id t with
  | error e =>
    unfold modify_product
    rw [hr]
  | ok p =>
    rw [modify_product_state_ok id m t p hr, update_product_snd,
      countOwner_update_map]

theorem countOwner_delete_product_le (id : Nat) (t : Table) (o : String) :
    countOwner (delete_product id t).2 o ≤ countOwner t o := by
  rw [delete_product_state, delete_product_db_snd]
  exact countOwner_filter_le t _ o

theorem applyOp_inv (st : SysState) (op : Op)
    (h : ∀ o, countOwner st.products o ≤ 1) :
    ∀ o, countOwner (applyOp st op).products o ≤ 1 := by
  intro o
  cases op with
  | issue f u => exact h o
  | readId hd =>
    show countOwner (route_get_identifier hd st).2.products o ≤ 1
    rw [state_route_get_identifier]
    exact h o
  | readP hd =>
    show countOwner (route_get_product hd st).2.products o ≤ 1
    rw [state_route_get_product]
    exact h o
  | createP hd p =>
    show countOwner (route_create_product hd p st).2.products o ≤ 1
    rcases products_route_create_product hd p st with heq | ⟨id, heq⟩
    · rw [heq]; exact h o
    · rw [heq]; exact countOwner_create_product id p st.products o (h o)
  | updateP hd m =>
    show countOwner (route_modify_product hd m st).2.products o ≤ 1
    rcases products_route_modify_product hd m st with heq | ⟨id, heq⟩
    · rw [heq]; exact h o
    · rw [heq, countOwner_modify_product]; exact h o
  | deleteP hd =>
    show countOwner (route_delete_product hd st).2.products o ≤ 1
    rcases products_route_delete_product hd st with heq | ⟨id, heq⟩
    · rw [heq]; exact h o
    · rw [heq]
      exact le_trans (countOwner_delete_product_le id st.products o) (h o)

theorem execOps_inv (ops : List Op) :
    ∀ st : SysState, (∀ o, countOwner st.products o ≤ 1) →
      ∀ o, countOwner (execOps st ops).products o ≤ 1 := by
  induction ops with
  | nil => intro st h; exact h
  | cons op ops ih =>
    intro st h
    exact ih (applyOp st op) (applyOp_inv st op h)

theorem from_request_parts_ok_get? (h : Option String) (users : Registry)
    (u : Nat) (hok : from_request_parts h users = Except.ok u) :
    ∃ name, Registry.get? users u = some (u, name) := by
  cases h with
  | none => simp [from_request_parts] at hok
  | some s =>
    cases hp : Uuid.parse_str s with
    | none =>
      have he : from_request_parts (some s) users
          = Except.error (403, "Invalid identifier") := by
        simp [from_request_parts, verify_uuid, hp]
      rw [he] at hok
      cases hok
    | some v =>
      cases hg : Registry.get? users v with
      | none =>
        have he : from_request_parts (some s) users
            = Except.error (403, "Invalid identifier!") := by
          simp [from_request_parts, verify_uuid, hp, hg]
        rw [he] at hok
        cases hok
      | some kv =>
        have hv : from_request_parts (some s) users = Except.ok v := by
          simp [from_request_parts, verify_uuid, hp, hg]
        rw [hv] at hok
        injection hok with huv
        subst huv
        have hg2 := hg
        unfold Registry.get? at hg2
        have h1 : kv.1 = v := by simpa using List.find?_some hg2
        exact ⟨kv.2, by rw [hg, ← h1]⟩

theorem users_applyOp (st : SysState) (op : Op) (u : Nat)
    (h : (Registry.get? st.users u).isSome) :
    (Registry.get? (applyOp st op).users u).isSome := by
  cases op with
  | issue f v => exact get?_insert_isSome st.users f u v h
  | readId hd =>
    show (Registry.get? (route_get_identifier hd st).2.users u).isSome
    rw [state_route_get_identifier]
    exact h
  | readP hd =>
    show (Registry.get? (route_get_product hd st).2.users u).isSome
    rw [state_route_get_product]
    exact h
  | createP hd p =>
    show (Registry.get? (route_create_product hd p st).2.users u).isSome
    rw [users_route_create_product]
    exact h
  | updateP hd m =>
    show (Registry.get? (route_modify_product hd m st).2.users u).isSome
    rw [users_route_modify_product]
    exact h
  | deleteP hd =>
    show (Registry.get? (route_delete_product hd st).2.users u).isSome
    rw [users_route_delete_product]
    exact h

/-- C1 counterexample: at the concrete input of a well-formed identifier
that is absent from the registry, the guard does not produce the reply
claimed (403 with message "Invalid identifier"): the code's message for
this case carries a trailing exclamation mark. -/
theorem c1_claimed_message_false :
    ¬ (from_request_parts (some "11111111-1111-1111-1111-111111111111")
        ([] : Registry) = Except.error (403, "Invalid identifier")) := by
  intro h
  have e1 : from_request_parts (some "11111111-1111-1111-1111-111111111111")
      ([] : Registry) = Except.error (403, "Invalid identifier!") := rfl
  have h2 := e1.symm.trans h
  injection h2 with h3
  have h4 : "Invalid identifier!" = "Invalid identifier" :=
    congrArg Prod.snd h3
  exact absurd h4 (by decide)

/-- C1 (amended): a missing `uuid` header is rejected 403 "Please pass
your identifier"; a header that does not parse as a hyphenated identifier
(`Uuid::parse_str` fails) is rejected 403 "Invalid identifier"; a header
that parses but is not in the Identity Registry is rejected 403
"Invalid identifier!" (note the trailing exclamation mark); otherwise the
guard succeeds and yields the parsed identifier as the owner key. -/
theorem c1_guard_behavior (users : Registry) :
    from_request_parts none users
        = Except.error (403, "Please pass your identifier") ∧
    (∀ s, Uuid.parse_str s = none →
      from_request_parts (some s) users
        = Except.error (403, "Invalid identifier")) ∧
    (∀ s u, Uuid.parse_str s = some u → Registry.get? users u = none →
      from_request_parts (some s) users
        = Except.error (403, "Invalid identifier!")) ∧
    (∀ s u, Uuid.parse_str s = some u → (Registry.get? users u).isSome →
      from_request_parts (some s) users = Except.ok u) := by
  refine ⟨rfl, ?_, ?_, ?_⟩
  · intro s hp
    simp [from_request_parts, verify_uuid, hp]
  · intro s u hp hg
    simp [from_request_parts, verify_uuid, hp, hg]
  · intro s u hp hg
    rcases Option.isSome_iff_exists.mp hg with ⟨kv, hkv⟩
    simp [from_request_parts, verify_uuid, hp, hkv]

/-- C1 witness: all four guard branches at concrete inputs. -/
theorem c1_guard_behavior_witness :
    from_request_parts none [((0 : Nat), "alice")]
        = Except.error (403, "Please pass your identifier") ∧
    from_request_parts (some "not-a-uuid") [((0 : Nat), "alice")]
        = Except.error (403, "Invalid identifier") ∧
    from_request_parts (some "11111111-1111-1111-1111-111111111111")
        [((0 : Nat), "alice")] = Except.error (403, "Invalid identifier!") ∧
    from_request_parts (some "00000000-0000-0000-0000-000000000000")
        [((0 : Nat), "alice")] = Except.ok 0 := by
  refine ⟨(c1_guard_behavior _).1, ?_, ?_, ?_⟩
  · exact (c1_guard_behavior _).2.1 _ rfl
  · exact (c1_guard_behavior _).2.2.1 _ _ rfl rfl
  · exact (c1_guard_behavior _).2.2.2 _ _ rfl rfl

/-- C2: creating a product for an owner that already has a record replies
409 with `Product::default()`, leaves the table unchanged, and a
subsequent read still returns the original record. -/
theorem c2_create_conflict_preserves (id : Nat) (t : Table)
    (payload p : Product) (h : Db.read_product id t = Except.ok p) :
    create_product id payload t = ((409, defaultProduct), t) ∧
    Db.read_product id (create_product id payload t).2 = Except.ok p := by
  have hc : create_product id payload t = ((409, defaultProduct), t) := by
    unfold create_product
    rw [h]
  exact ⟨hc, by rw [hc]; exact h⟩

/-- C2 witness at a concrete owner, record and payload. -/
theorem c2_create_conflict_preserves_witness :
    create_product 0 ⟨"n2", "d2"⟩ [⟨Uuid.hyphenated 0, "a", "b"⟩]
        = ((409, defaultProduct), [⟨Uuid.hyphenated 0, "a", "b"⟩]) ∧
    Db.read_product 0
        (create_product 0 ⟨"n2", "d2"⟩ [⟨Uuid.hyphenated 0, "a", "b"⟩]).2
      = Except.ok ⟨"a", "b"⟩ :=
  c2_create_conflict_preserves 0 [⟨Uuid.hyphenated 0, "a", "b"⟩]
    ⟨"n2", "d2"⟩ ⟨"a", "b"⟩ rfl

/-- C3: for an owner with exactly one product record, a partial update
replies 204 and the resulting record merges the supplied fields over the
prior ones (absent fields keep their previous values). -/
theorem c3_partial_update (id : Nat) (t : Table) (m : ModifyProduct)
    (p : Product) (hcount : countOwner t (Uuid.hyphenated id) = 1)
    (hread : Db.read_product id t = Except.ok p) :
    (modify_product id m t).1 = 204 ∧
    Db.read_product id (modify_product id m t).2
      = Except.ok ⟨m.name.getD p.name, m.description.getD p.description⟩ := by
  have hupd : Db.update_product id (m.name.getD p.name)
      (m.description.getD p.description) t
      = (Except.ok (), t.map (fun r =>
          if r.owner == Uuid.hyphenated id
          then ⟨r.owner, m.name.getD p.name, m.description.getD p.description⟩
          else r)) := by
    simp [Db.update_product, hcount]
  have hfind : (t.find? (fun r => r.owner == Uuid.hyphenated id)).isSome := by
    unfold Db.read_product at hread
    cases hf : t.find? (fun r => r.owner == Uuid.hyphenated id) with
    | none =>
      rw [hf] at hread
      cases hread
    | some val => rfl
  constructor
  · simp only [modify_product, hread, hupd]
  · rw [modify_product_state_ok id m t p hread, update_product_snd]
    unfold Db.read_product
    rw [find?_update_map _ _ _ t hfind]

/-- C3 witness: the spec's own example, a record (A, B) updated with only
a description C, giving (A, C). -/
theorem c3_partial_update_witness :
    (modify_product 0 ⟨none, some "C"⟩ [⟨Uuid.hyphenated 0, "A", "B"⟩]).1
        = 204 ∧
    Db.read_product 0
        (modify_product 0 ⟨none, some "C"⟩ [⟨Uuid.hyphenated 0, "A", "B"⟩]).2
      = Except.ok ⟨"A", "C"⟩ :=
  c3_partial_update 0 [⟨Uuid.hyphenated 0, "A", "B"⟩] ⟨none, some "C"⟩
    ⟨"A", "B"⟩ rfl rfl

/-- C4: in every state reachable from the freshly-started service by a
sequence of requests, each owner string has at most one row in the
product table. -/
theorem c4_at_most_one_product_record (ops : List Op) (o : String) :
    countOwner (execOps emptyState ops).products o ≤ 1 := by
  refine execOps_inv ops emptyState ?_ o
  intro o2
  simp [emptyState, countOwner]

/-- C5: issuing an identifier for any username (the fresh uuid being any
128-bit value) and then reading GET /identifiers with that identifier in
the `uuid` header returns 302 with exactly that identifier and username. -/
theorem c5_issue_then_lookup_roundtrip (st : SysState) (username : String)
    (fresh : Nat) (hf : fresh < 2 ^ 128) :
    (route_create_identifier fresh username st).1
        = Reply.jsonStr 200 (Uuid.hyphenated fresh) ∧
    (route_get_identifier (some (Uuid.hyphenated fresh))
        (route_create_identifier fresh username st).2).1
      = some (Reply.jsonUser 302 ⟨Uuid.hyphenated fresh, username⟩) := by
  refine ⟨rfl, ?_⟩
  have hparse := parse_str_hyphenated fresh hf
  simp [route_get_identifier, route_create_identifier, create_identifier,
    from_request_parts, verify_uuid, get_identifier, hparse, get?_insert_self]

/-- C5 witness at username "alice" and fresh uuid 0. -/
theorem c5_issue_then_lookup_roundtrip_witness :
    (route_create_identifier 0 "alice" emptyState).1
        = Reply.jsonStr 200 (Uuid.hyphenated 0) ∧
    (route_get_identifier (some (Uuid.hyphenated 0))
        (route_create_identifier 0 "alice" emptyState).2).1
      = some (Reply.jsonUser 302 ⟨Uuid.hyphenated 0, "alice"⟩) :=
  c5_issue_then_lookup_roundtrip emptyState "alice" 0 (by norm_num)

/-- C6: in the http_interface iteration every protected route rejects an
identifier that is absent from the Identity Registry with 403
"Invalid identifier!" and leaves the state untouched, whatever the
product table holds; but in the earlier iteration (src/src/main.rs) the
identity-read handler `list_identifier` panics (models as `none`) on its
`.unwrap()` for a well-formed identifier that was never issued, instead
of rejecting the request. -/
theorem c6_unknown_identifier (st : SysState) (s : String) (u : Nat)
    (p : Product) (m : ModifyProduct) (hp : Uuid.parse_str s = some u)
    (hg : Registry.get? st.users u = none) :
    (route_get_identifier (some s) st
        = (some (Reply.reject 403 "Invalid identifier!"), st) ∧
      route_create_product (some s) p st
        = (some (Reply.reject 403 "Invalid identifier!"), st) ∧
      route_get_product (some s) st
        = (some (Reply.reject 403 "Invalid identifier!"), st) ∧
      route_modify_product (some s) m st
        = (some (Reply.reject 403 "Invalid identifier!"), st) ∧
      route_delete_product (some s) st
        = (some (Reply.reject 403 "Invalid identifier!"), st)) ∧
    list_identifier "11111111-1111-1111-1111-111111111111" ([] : Registry)
      = none := by
  have hfr : from_request_parts (some s) st.users
      = Except.error (403, "Invalid identifier!") := by
    simp [from_request_parts, verify_uuid, hp, hg]
  refine ⟨⟨?_, ?_, ?_, ?_, ?_⟩, rfl⟩ <;>
    simp [route_get_identifier, route_create_product, route_get_product,
      route_modify_product, route_delete_product, hfr]

/-- C6 witness: a never-issued identifier, in a state whose product table
even holds a record under that very identifier. -/
theorem c6_unknown_identifier_witness :
    (route_get_identifier (some (Uuid.hyphenated 5))
        ⟨[], [⟨Uuid.hyphenated 5, "n", "d"⟩]⟩
      = (some (Reply.reject 403 "Invalid identifier!"),
          ⟨[], [⟨Uuid.hyphenated 5, "n", "d"⟩]⟩) ∧
      route_create_product (some (Uuid.hyphenated 5)) ⟨"x", "y"⟩
        ⟨[], [⟨Uuid.hyphenated 5, "n", "d"⟩]⟩
      = (some (Reply.reject 403 "Invalid identifier!"),
          ⟨[], [⟨Uuid.hyphenated 5, "n", "d"⟩]⟩) ∧
      route_get_product (some (Uuid.hyphenated 5))
        ⟨[], [⟨Uuid.hyphenated 5, "n", "d"⟩]⟩
      = (some (Reply.reject 403 "Invalid identifier!"),
          ⟨[], [⟨Uuid.hyphenated 5, "n", "d"⟩]⟩) ∧
      route_modify_product (some (Uuid.hyphenated 5)) ⟨none, none⟩
        ⟨[], [⟨Uuid.hyphenated 5, "n", "d"⟩]⟩
      = (some (Reply.reject 403 "Invalid identifier!"),
          ⟨[], [⟨Uuid.hyphenated 5, "n", "d"⟩]⟩) ∧
      route_delete_product (some (Uuid.hyphenated 5))
        ⟨[], [⟨Uuid.hyphenated 5, "n", "d"⟩]⟩
      = (some (Reply.reject 403 "Invalid identifier!"),
          ⟨[], [⟨Uuid.hyphenated 5, "n", "d"⟩]⟩)) ∧
    list_identifier "11111111-1111-1111-1111-111111111111" ([] : Registry)
      = none :=
  c6_unknown_identifier ⟨[], [⟨Uuid.hyphenated 5, "n", "d"⟩]⟩
    (Uuid.hyphenated 5) 5 ⟨"x", "y"⟩ ⟨none, none⟩
    (parse_str_hyphenated 5 (by norm_num)) rfl

/-- C7: update and delete report success only when exactly one row of the
owner existed; an update whose WHERE clause matches zero rows (the state
the separate existence check was supposed to exclude) yields 500, not
success or 404. -/
theorem c7_write_discipline (id : Nat) (t : Table) (nn nd : String) :
    ((Db.update_product id nn nd t).1 = Except.ok ()
      → countOwner t (Uuid.hyphenated id) = 1) ∧
    ((Db.delete_product id t).1 = Except.ok ()
      → countOwner t (Uuid.hyphenated id) = 1) ∧
    (countOwner t (Uuid.hyphenated id) = 0
      → (Db.update_product id nn nd t).1 = Except.error 500) := by
  refine ⟨?_, ?_, ?_⟩
  · intro h
    by_cases hc : countOwner t (Uuid.hyphenated id) = 1
    · exact hc
    · simp [Db.update_product, hc] at h
  · intro h
    by_cases hc : countOwner t (Uuid.hyphenated id) = 1
    · exact hc
    · simp [Db.delete_product, hc] at h
  · intro h0
    have hc : ¬ countOwner t (Uuid.hyphenated id) = 1 := by omega
    simp [Db.update_product, hc]

/-- C7 witness: a one-row table for the successful update and delete, and
the empty table for the zero-row update. -/
theorem c7_write_discipline_witness :
    countOwner [(⟨Uuid.hyphenated 0, "a", "b"⟩ : Row)] (Uuid.hyphenated 0)
        = 1 ∧
    countOwner [(⟨Uuid.hyphenated 0, "a", "b"⟩ : Row)] (Uuid.hyphenated 0)
        = 1 ∧
    (Db.update_product 0 "x" "y" ([] : Table)).1 = Except.error 500 := by
  refine ⟨?_, ?_, ?_⟩
  · exact (c7_write_discipline 0 [⟨Uuid.hyphenated 0, "a", "b"⟩] "x" "y").1 rfl
  · exact
      (c7_write_discipline 0 [⟨Uuid.hyphenated 0, "a", "b"⟩] "x" "y").2.1 rfl
  · exact (c7_write_discipline 0 [] "x" "y").2.2 rfl

/-- C8: for a validated owner with no product row, GET replies 404 with
the default product, PUT replies 404, DELETE replies 404, and the table
is unchanged by all three. -/
theorem c8_missing_product_not_found (id : Nat) (t : Table)
    (m : ModifyProduct) (h : countOwner t (Uuid.hyphenated id) = 0) :
    get_product id t = (404, defaultProduct) ∧
    modify_product id m t = (404, t) ∧
    delete_product id t = (404, t) := by
  have hf : t.find? (fun r => r.owner == Uuid.hyphenated id) = none :=
    (countOwner_eq_zero_iff t _).mp h
  have hread : Db.read_product id t = Except.error 404 := by
    unfold Db.read_product
    rw [hf]
  refine ⟨?_, ?_, ?_⟩
  · unfold get_product
    rw [hread]
  · unfold modify_product
    rw [hread]
  · have hc : ¬ countOwner t (Uuid.hyphenated id) = 1 := by omega
    have hdel : Db.delete_product id t = (Except.error 404, t) := by
      simp [Db.delete_product, hc, filter_eq_self_of_countOwner_zero t _ h]
    unfold delete_product
    rw [hdel]

/-- C8 witness: the empty table. -/
theorem c8_missing_product_not_found_witness :
    get_product 0 [] = (404, defaultProduct) ∧
    modify_product 0 ⟨some "x", none⟩ [] = (404, []) ∧
    delete_product 0 [] = (404, []) :=
  c8_missing_product_not_found 0 [] ⟨some "x", none⟩ rfl

/-- C9: deleting the one existing record of an owner replies 204 (no
body) and a subsequent read of that owner yields 404. -/
theorem c9_delete_then_read_not_found (id : Nat) (t : Table)
    (h : countOwner t (Uuid.hyphenated id) = 1) :
    (delete_product id t).1 = 204 ∧
    Db.read_product id (delete_product id t).2 = Except.error 404 := by
  have hdel : Db.delete_product id t
      = (Except.ok (),
          t.filter (fun r => !(r.owner == Uuid.hyphenated id))) := by
    simp [Db.delete_product, h]
  constructor
  · unfold delete_product
    rw [hdel]
  · rw [delete_product_state, delete_product_db_snd]
    unfold Db.read_product
    rw [(countOwner_eq_zero_iff _ _).mp (countOwner_filter_self t _)]

/-- C9 witness at a concrete one-record table. -/
theorem c9_delete_then_read_not_found_witness :
    (delete_product 0 [⟨Uuid.hyphenated 0, "a", "b"⟩]).1 = 204 ∧
    Db.read_product 0 (delete_product 0 [⟨Uuid.hyphenated 0, "a", "b"⟩]).2
      = Except.error 404 :=
  c9_delete_then_read_not_found 0 [⟨Uuid.hyphenated 0, "a", "b"⟩] rfl

/-- C10: the identity-read route never hits the panic of the unchecked
lookup: for every header and state its reply is defined; whenever the
guard passes with identifier u, the registry holds (u, name) and the
reply is 302 with the caller's id and username; and no operation removes
an identifier from the registry (presence is preserved by every step). -/
theorem c10_identity_read_never_panics :
    (∀ (h : Option String) (st : SysState),
      (route_get_identifier h st).1 ≠ none) ∧
    (∀ (h : Option String) (st : SysState) (u : Nat),
      from_request_parts h st.users = Except.ok u →
      ∃ name, Registry.get? st.users u = some (u, name) ∧
        (route_get_identifier h st).1
          = some (Reply.jsonUser 302 ⟨Uuid.hyphenated u, name⟩)) ∧
    (∀ (st : SysState) (op : Op) (u : Nat),
      (Registry.get? st.users u).isSome →
      (Registry.get? (applyOp st op).users u).isSome) := by
  refine ⟨?_, ?_, ?_⟩
  · intro hd st
    cases hfr : from_request_parts hd st.users with
    | error em => simp [route_get_identifier, hfr]
    | ok u =>
      rcases from_request_parts_ok_get? hd st.users u hfr with ⟨name, hg⟩
      simp [route_get_identifier, hfr, get_identifier, hg]
  · intro hd st u hfr
    rcases from_request_parts_ok_get? hd st.users u hfr with ⟨name, hg⟩
    exact ⟨name, hg,
      by simp [route_get_identifier, hfr, get_identifier, hg]⟩
  · intro st op u h
    exact users_applyOp st op u h

/-- C10 witness at a concrete registered identifier and one step. -/
theorem c10_identity_read_never_panics_witness :
    (route_get_identifier (some (Uuid.hyphenated 0))
        ⟨[(0, "alice")], []⟩).1 ≠ none ∧
    (∃ name, Registry.get? ([((0 : Nat), "alice")] : Registry) 0
          = some (0, name) ∧
        (route_get_identifier (some (Uuid.hyphenated 0))
            ⟨[(0, "alice")], []⟩).1
          = some (Reply.jsonUser 302 ⟨Uuid.hyphenated 0, name⟩)) ∧
    (Registry.get?
        (applyOp ⟨[(0, "alice")], []⟩ (Op.issue 1 "bob")).users 0).isSome :=
  ⟨c10_identity_read_never_panics.1 (some (Uuid.hyphenated 0))
      ⟨[(0, "alice")], []⟩,
    c10_identity_read_never_panics.2.1 (some (Uuid.hyphenated 0))
      ⟨[(0, "alice")], []⟩ 0 rfl,
    c10_identity_read_never_panics.2.2 ⟨[(0, "alice")], []⟩
      (Op.issue 1 "bob") 0 rfl⟩

end RRest
